import Mathlib

/-!
Verification of the field classification-and-interaction engine of the
CB-news repository (`src/test_application_flow.py`, `src/anti_bot_handler.py`).

The Python code is shallowly embedded: dictionaries with possibly-missing
keys and possibly-`None` values become `Option`-typed structures, raised
exceptions become `Except` values (a blanket `except` handler becomes a
`match` on the `Except`), and page interaction is abstracted by oracle
functions describing what each selector resolves to.
-/

namespace CBNews

/-- Python `s.startswith(p)` on character lists: `p` is an initial segment. -/
def listStartsWith : List Char → List Char → Bool
  | _, [] => true
  | [], _ :: _ => false
  | c :: cs, p :: ps => (c == p) && listStartsWith cs ps

/-- Python substring membership `pat in hay` on character lists. -/
def listContainsSub : List Char → List Char → Bool
  | [], pat => pat.isEmpty
  | c :: cs, pat => listStartsWith (c :: cs) pat || listContainsSub cs pat

/-- Python `pat in s` for strings. -/
def strContains (s pat : String) : Bool :=
  listContainsSub s.toList pat.toList

/-- Python `s.lower()` (ASCII case folding, as used by the field names here). -/
def strLower (s : String) : String :=
  String.mk (s.toList.map Char.toLower)

/-- The four actions the classifier can emit (`ACTION:` lines in
`_analyze_field`). -/
inductive Action where
  | FILL
  | SKIP
  | UPLOAD
  | ALERT
deriving DecidableEq, Repr

/-- One classification outcome: the `ACTION: .. / VALUE: .. / REASON: ..`
payload returned by `_analyze_field`, structured. `value` is `some v`
exactly when the returned string carries a `VALUE:` line. -/
structure Decision where
  action : Action
  value : Option String
  reason : String
deriving DecidableEq, Repr

/-- One form field as built by `_get_form_fields`: the dict keys `name` and
`type` hold `get_attribute` results, which may be Python `None` (`none`
here); `required` is the presence of the `required` attribute. -/
structure FieldInfo where
  name : Option String
  ftype : Option String
  required : Bool
deriving DecidableEq, Repr

/-- The `personal_information` mapping of the YAML profile; each field is
`some v` when the key is present (a missing key raises `KeyError` at the
subscript, modelled at each use site). -/
structure PersonalInformation where
  pname : Option String
  surname : Option String
  email : Option String
  phone : Option String
  city : Option String
  country : Option String
  linkedin : Option String
  github : Option String
  website : Option String
deriving DecidableEq, Repr

/-- One entry of `experience_details`. -/
structure ExperienceDetail where
  position : Option String
  company : Option String
  key_responsibilities : Option (List String)
deriving DecidableEq, Repr

/-- The `skills` mapping of the YAML profile. -/
structure Skills where
  programming_languages : Option (List String)
  ai_ml : Option (List String)
  cloud_services : Option (List String)
deriving DecidableEq, Repr

/-- The loaded YAML config (`self.config`): top-level keys may be absent. -/
structure Config where
  personal_information : Option PersonalInformation
  experience_details : Option (List ExperienceDetail)
  skills : Option Skills
deriving DecidableEq, Repr

/-- `_generate_cover_letter`: builds the cover-letter text from the first
`experience_details` entry (default `[{}]` when the key is absent) and the
`skills` lists. Any `KeyError`/`IndexError` raised by a subscript inside it
is caught by the caller `_get_field_value_from_config`, so a `none` result
stands for "an exception escaped `_generate_cover_letter`". -/
def generateCoverLetter (cfg : Config) : Option String :=
  match (cfg.experience_details.getD [⟨none, none, none⟩]).head? with
  | none => none
  | some experience =>
    match cfg.skills with
    | none => none
    | some sk =>
      match sk.programming_languages with
      | none => none
      | some langs =>
        match (experience.key_responsibilities.getD [""]).head? with
        | none => none
        | some kr0 =>
          match sk.ai_ml with
          | none => none
          | some aiml =>
            match aiml.head? with
            | none => none
            | some aiml0 =>
              match sk.cloud_services with
              | none => none
              | some cs =>
                match cs.head? with
                | none => none
                | some cs0 =>
                  match cfg.personal_information with
                  | none => none
                  | some pi =>
                    match pi.pname, pi.surname with
                    | some nm, some sn =>
                      some ("Dear Hiring Manager,\n\nI am writing to express my interest in the position. As a "
                        ++ experience.position.getD "" ++ " at "
                        ++ experience.company.getD "" ++ ", \nI have extensive experience in "
                        ++ String.intercalate ", " (langs.take 3)
                        ++ ".\n\nKey achievements:\n" ++ kr0
                        ++ "\n\nI am particularly drawn to this opportunity because of my background in "
                        ++ aiml0 ++ " \nand " ++ cs0
                        ++ ".\n\nBest regards,\n" ++ nm ++ " " ++ sn ++ "\n")
                    | _, _ => none

/-- `_get_field_value_from_config(field_name, field_type)`: substring match
of the lower-cased field name against the fixed if/elif chain; every
subscript on a missing key (`KeyError`), `[0]` on an empty list
(`IndexError`), and `.lower()` on a `None` name (`AttributeError`) is caught
by the function's own `except` clauses and becomes `None`, i.e. `none`. -/
def getFieldValueFromConfig (fieldName : Option String) (cfg : Config) : Option String :=
  match fieldName with
  | none => none
  | some n0 =>
    let n := strLower n0
    if strContains n "name" then
      match cfg.personal_information with
      | none => none
      | some pi =>
        match pi.pname, pi.surname with
        | some a, some b => some (a ++ " " ++ b)
        | _, _ => none
    else if strContains n "email" then
      match cfg.personal_information with
      | none => none
      | some pi => pi.email
    else if strContains n "phone" then
      match cfg.personal_information with
      | none => none
      | some pi => pi.phone
    else if strContains n "location" then
      match cfg.personal_information with
      | none => none
      | some pi =>
        match pi.city, pi.country with
        | some c, some k => some (c ++ ", " ++ k)
        | _, _ => none
    else if strContains n "company" || strContains n "org" then
      match cfg.experience_details with
      | none => none
      | some l =>
        match l.head? with
        | none => none
        | some e => e.company
    else if strContains n "linkedin" then
      match cfg.personal_information with
      | none => none
      | some pi => pi.linkedin
    else if strContains n "github" then
      match cfg.personal_information with
      | none => none
      | some pi => pi.github
    else if strContains n "portfolio" || strContains n "website" then
      match cfg.personal_information with
      | none => none
      | some pi => pi.website
    else if strContains n "comments" || strContains n "cover" then
      generateCoverLetter cfg
    else
      none

/-- The body of `_analyze_field` up to (but not including) its blanket
`except` handler: `.error` marks an exception escaping the body — concretely
the `AttributeError` from `field_name.lower()` when a file-type field has a
`None` name (profile-lookup exceptions are already caught inside
`_get_field_value_from_config` and never reach this handler). -/
def analyzeFieldBody (f : FieldInfo) (cfg : Config) : Except String Decision :=
  if f.ftype = some "hidden" then
    .ok ⟨.SKIP, none, "Hidden field"⟩
  else if f.ftype = some "file" then
    match f.name with
    | none => .error "AttributeError: NoneType object has no attribute lower"
    | some n =>
      if strContains (strLower n) "resume" || strContains (strLower n) "cv" then
        .ok ⟨.UPLOAD, some "resume.pdf", "Resume upload field"⟩
      else
        .ok ⟨.SKIP, none, "Unknown file upload"⟩
  else
    let value := getFieldValueFromConfig f.name cfg
    if f.required then
      if value.getD "" ≠ "" then .ok ⟨.FILL, value, "Required field"⟩
      else .ok ⟨.ALERT, none, "Required field needs value"⟩
    else
      if value.getD "" ≠ "" then .ok ⟨.FILL, value, "Optional field with data"⟩
      else .ok ⟨.SKIP, none, "Optional field without data"⟩

/-- `_analyze_field`: the body wrapped in its `try`/`except`, which logs and
returns `ACTION: SKIP / REASON: Error in analysis` on any exception. -/
def analyzeField (f : FieldInfo) (cfg : Config) : Decision :=
  match analyzeFieldBody f cfg with
  | .ok d => d
  | .error _ => ⟨.SKIP, none, "Error in analysis"⟩

/-- Rendering of a `Decision` back to the literal string `_analyze_field`
returns (`ACTION:`/`VALUE:`/`REASON:` lines). -/
def renderDecision (d : Decision) : String :=
  let actionName :=
    match d.action with
    | .FILL => "FILL"
    | .SKIP => "SKIP"
    | .UPLOAD => "UPLOAD"
    | .ALERT => "ALERT"
  match d.value with
  | some v => "ACTION: " ++ actionName ++ "\nVALUE: " ++ v ++ "\nREASON: " ++ d.reason
  | none => "ACTION: " ++ actionName ++ "\nREASON: " ++ d.reason

/-! ### The per-field loop of `test_application_flow`

Python local variables that the loop references are modelled as `Option`
state: `none` means the name is unbound, and referencing an unbound name
raises `NameError` (`.error`).  The loop of `test_application_flow`
references `analysis` (line 272) and `required_fields` (lines 282/286/288)
without ever binding `required_fields`, and reads `analysis` before its
first assignment. -/

/-- One pass over the remaining fields.  `analysis` and `requiredFields`
carry the Python local variables (`none` = unbound).  `fill f a` and
`upload` are oracles for the success of `_fill_field` and `_upload_resume`.
The result is the pair (value of `required_fields`, value of `analysis`)
at loop exit, or the exception that escaped. -/
def fieldLoopGo (cfg : Config) (fill : FieldInfo → String → Bool) (upload : Bool) :
    List FieldInfo → Option String → Option (List (Option String)) →
    Except String (Option (List (Option String)) × Option String)
  | [], analysis, rf => .ok (rf, analysis)
  | f :: rest, analysis, rf =>
    match analysis with
    | none => .error "NameError: name analysis is not defined"
    | some _prev =>
      let a := renderDecision (analyzeField f cfg)
      if strContains a "ACTION: FILL" then
        if fill f a then
          fieldLoopGo cfg fill upload rest (some a) rf
        else if f.required then
          match rf with
          | none => .error "NameError: name required_fields is not defined"
          | some l => fieldLoopGo cfg fill upload rest (some a) (some (l ++ [f.name]))
        else
          fieldLoopGo cfg fill upload rest (some a) rf
      else if strContains a "ACTION: UPLOAD" then
        if upload then
          fieldLoopGo cfg fill upload rest (some a) rf
        else if f.required then
          match rf with
          | none => .error "NameError: name required_fields is not defined"
          | some l => fieldLoopGo cfg fill upload rest (some a) (some (l ++ [f.name]))
        else
          fieldLoopGo cfg fill upload rest (some a) rf
      else if strContains a "ACTION: ALERT" then
        match rf with
        | none => .error "NameError: name required_fields is not defined"
        | some l => fieldLoopGo cfg fill upload rest (some a) (some (l ++ [f.name]))
      else
        fieldLoopGo cfg fill upload rest (some a) rf

/-- The field loop of `test_application_flow` plus the completion report:
the loop starts with both `analysis` and `required_fields` unbound, and the
report line `if required_fields:` reads `required_fields` after the loop.
`.ok` would carry the surfaced missing-required list. -/
def testApplicationFlowLoop (fields : List FieldInfo) (cfg : Config)
    (fill : FieldInfo → String → Bool) (upload : Bool) :
    Except String (List (Option String)) :=
  match fieldLoopGo cfg fill upload fields none none with
  | .error e => .error e
  | .ok (rf, _) =>
    match rf with
    | none => .error "NameError: name required_fields is not defined"
    | some l => .ok l

/-! ### `_save_application_details` and the history store -/

/-- One persisted application attempt (the dict literal of
`_save_application_details`). The collaborator payloads are opaque strings. -/
structure ApplicationRecord where
  job_details : String
  analysis : String
  cover_letter : String
  timestamp : String
  status : String
deriving DecidableEq, Repr

/-- Module-level names bound by the imports of `test_application_flow.py`
(lines 1–16). `datetime` is not among them. -/
def importedNames : List String :=
  ["sync_playwright", "OllamaLLM", "Tool", "ConversationBufferMemory",
   "PromptTemplate", "StrOutputParser", "yaml", "Path", "logging", "os",
   "requests", "json", "Dict", "Any", "AntiBotHandler", "LeverJobAnalyzer",
   "LeverNavigator"]

/-- Resolution of a global name in the module: unbound names raise
`NameError`. -/
def pyGlobal (n : String) : Except String Unit :=
  if n ∈ importedNames then .ok () else .error ("NameError: name " ++ n ++ " is not defined")

/-- The body of `_save_application_details` up to its blanket `except`: the
record literal evaluates `datetime.now().isoformat()` first, so the global
`datetime` is resolved before the history file is read or written.  `now`
is the wall-clock reading that call would produce.  On success the new
file contents (old contents, default `[]`, plus the record) are returned. -/
def saveApplicationDetailsBody (store : Option (List ApplicationRecord))
    (jd an cl now : String) : Except String (List ApplicationRecord) := do
  let _ ← pyGlobal "datetime"
  let record : ApplicationRecord := ⟨jd, an, cl, now, "attempted"⟩
  let existing := store.getD []
  .ok (existing ++ [record])

/-- `_save_application_details`: body wrapped in its `try`/`except`, which
logs the error and leaves the history file untouched. The argument `store`
is the current history file contents (`none` = file does not exist) and the
result is the contents after the call. -/
def saveApplicationDetails (store : Option (List ApplicationRecord))
    (jd an cl now : String) : Option (List ApplicationRecord) :=
  match saveApplicationDetailsBody store jd an cl now with
  | .ok l => some l
  | .error _ => store

/-- Modelled from the spec: the history-store append that
`_save_application_details` documents ("Save details of this application
attempt", "Application details saved to history") and §6 specifies —
read the collection whole (empty or missing store initializes as an empty
collection), append the record, write it back.  The code itself never
reaches this because of the unresolved `datetime` global. -/
def saveApplicationDetailsIntended (store : Option (List ApplicationRecord))
    (jd an cl now : String) : Option (List ApplicationRecord) :=
  some (store.getD [] ++ [⟨jd, an, cl, now, "attempted"⟩])

/-! ### `_try_upload_file` / `_upload_resume` -/

/-- What one guarded selector attempt in `_try_upload_file` does on the
live page: the `locator`/`count` call raises; or the selector resolves to
zero elements; or it resolves and `set_input_files` plus the settle wait
run to the `return True`; or it resolves but the attach/wait raises (the
exception is caught and the next selector is tried). -/
inductive SelectorOutcome where
  | raises
  | noElement
  | attachOk
  | attachFails
deriving DecidableEq, Repr

/-- `_try_upload_file`, instrumented: besides the returned bool it records
which selectors were attempted, in order. An attempt that reaches
`return True` stops the loop. -/
def tryUploadAttempts (page : String → SelectorOutcome) :
    List String → Bool × List String
  | [] => (false, [])
  | s :: rest =>
    match page s with
    | .attachOk => (true, [s])
    | _ =>
      let r := tryUploadAttempts page rest
      (r.fst, s :: r.snd)

/-- `_try_upload_file`: the bool the Python function returns. -/
def tryUploadFile (page : String → SelectorOutcome) (selectors : List String) : Bool :=
  (tryUploadAttempts page selectors).fst

/-- The selector list of `_upload_resume`. -/
def resumeSelectors : List String :=
  ["input[name=\x27resume\x27]",
   "input[type=\x27file\x27][name*=\x27resume\x27 i]",
   "input[type=\x27file\x27][accept=\x27.pdf\x27]",
   "input[type=\x27file\x27][name*=\x27cv\x27 i]",
   "input[type=\x27file\x27]"]

/-- `_upload_resume`. -/
def uploadResume (page : String → SelectorOutcome) : Bool :=
  tryUploadFile page resumeSelectors

/-! ### `AntiBotHandler.handle_captcha` / `_handle_manual_captcha` -/

/-- Observable steps of the manual-resolution path, in order: the
`captcha.png` screenshot, the blocking `input()` prompt, the fixed
`wait_for_timeout(2000)` settle wait, and the re-scan of
`iframe[src*=captcha]`. -/
inductive CaptchaEvent where
  | screenshot (path : String)
  | awaitHuman
  | settle (ms : Nat)
  | rescan
deriving DecidableEq, Repr

/-- `_handle_manual_captcha`: `postCount` is the number of elements the
generic marker `iframe[src*=captcha]` resolves to after the human signal
and the settle wait. Returns the reported success plus the event trace. -/
def handleManualCaptcha (postCount : Nat) : Bool × List CaptchaEvent :=
  let events := [CaptchaEvent.screenshot "captcha.png", CaptchaEvent.awaitHuman,
                 CaptchaEvent.settle 2000, CaptchaEvent.rescan]
  if postCount > 0 then (false, events) else (true, events)

/-- The fixed challenge-marker table of `handle_captcha`
(`captcha_selectors`), in dict insertion order. -/
def captchaSelectors : List (String × List String) :=
  [("hcaptcha",
    ["iframe[title*=\x27checkbox\x27]", "#h-captcha", ".h-captcha",
     "iframe[src*=\x27hcaptcha\x27]"]),
   ("recaptcha",
    ["iframe[src*=\x27recaptcha\x27]", ".g-recaptcha", "#recaptcha"])]

/-- The scan loop of `handle_captcha`: the first selector in the table that
resolves to at least one element (`count` gives each selector's element
count) enters `_handle_manual_captcha`; if none does, the function returns
`False` having performed none of the manual-resolution steps. -/
def scanCaptcha (count : String → Nat) (postCount : Nat) :
    List (String × List String) → Bool × List CaptchaEvent
  | [] => (false, [])
  | (_kind, sels) :: rest =>
    if sels.any (fun s => count s > 0) then handleManualCaptcha postCount
    else scanCaptcha count postCount rest

/-- `handle_captcha`. -/
def handleCaptcha (count : String → Nat) (postCount : Nat) : Bool × List CaptchaEvent :=
  scanCaptcha count postCount captchaSelectors

/-- An empty profile, used to instantiate universally proved statements. -/
def cfgEmpty : Config := ⟨none, none, none⟩

/-! ### Spec-side priority table for the profile lookup (refinement target)

These definitions follow the wording of §4.2 of the spec: a fixed priority
table of (substring predicate, profile value) pairs in the order name,
email, phone, location, company/org, linkedin, github, portfolio/website,
comments/cover, where the first matching key determines the value and an
absent profile key yields "no value found" (`none`). -/

/-- First entry of a priority table whose predicate accepts the (already
lower-cased) field name; its stored value is the lookup result. -/
def firstMatch : List ((String → Bool) × Option String) → String → Option String
  | [], _ => none
  | e :: rest, n => if e.fst n then e.snd else firstMatch rest n

/-- Spec-side: a single `personal_information` key, `none` when the section
or the key is absent. -/
def specPersonalField (cfg : Config) (f : PersonalInformation → Option String) :
    Option String :=
  match cfg.personal_information with
  | none => none
  | some pi => f pi

/-- Spec-side "name → full name": given name and surname joined by a
space, `none` when either is absent. -/
def specFullName (cfg : Config) : Option String :=
  match cfg.personal_information with
  | none => none
  | some pi =>
    match pi.pname, pi.surname with
    | some a, some b => some (a ++ " " ++ b)
    | _, _ => none

/-- Spec-side "location → city+country". -/
def specLocation (cfg : Config) : Option String :=
  match cfg.personal_information with
  | none => none
  | some pi =>
    match pi.city, pi.country with
    | some c, some k => some (c ++ ", " ++ k)
    | _, _ => none

/-- Spec-side "company/org → most recent employer": the company of the
first-listed experience entry. -/
def specRecentEmployer (cfg : Config) : Option String :=
  match cfg.experience_details with
  | none => none
  | some l =>
    match l.head? with
    | none => none
    | some e => e.company

/-- The spec's fixed priority table, in its stated order. -/
def specPriorityTable (cfg : Config) : List ((String → Bool) × Option String) :=
  [(fun n => strContains n "name", specFullName cfg),
   (fun n => strContains n "email", specPersonalField cfg PersonalInformation.email),
   (fun n => strContains n "phone", specPersonalField cfg PersonalInformation.phone),
   (fun n => strContains n "location", specLocation cfg),
   (fun n => strContains n "company" || strContains n "org", specRecentEmployer cfg),
   (fun n => strContains n "linkedin", specPersonalField cfg PersonalInformation.linkedin),
   (fun n => strContains n "github", specPersonalField cfg PersonalInformation.github),
   (fun n => strContains n "portfolio" || strContains n "website",
     specPersonalField cfg PersonalInformation.website),
   (fun n => strContains n "comments" || strContains n "cover", generateCoverLetter cfg)]

/-- A value truthy in Python (`if value:`) is `some` of its own default
read-back. -/
theorem option_getD_ne_some {o : Option String} (h : o.getD "" ≠ "") :
    o = some (o.getD "") := by
  cases o with
  | none => simp at h
  | some v => rfl

/-- C1: `_analyze_field` always yields exactly one of the four actions;
a FILL decision always carries a non-empty value (the Python truthiness
guard `if value:`); and a required field that reaches the profile-lookup
stage (type neither `hidden` nor `file`) whose lookup resolves no truthy
value is classified ALERT — in particular not FILL with an empty value and
not SKIP. -/
theorem analyze_field_c1 (f : FieldInfo) (cfg : Config) :
    ((analyzeField f cfg).action = Action.FILL ∨ (analyzeField f cfg).action = Action.SKIP ∨
      (analyzeField f cfg).action = Action.UPLOAD ∨ (analyzeField f cfg).action = Action.ALERT)
    ∧ ((analyzeField f cfg).action = Action.FILL →
        ∃ v, (analyzeField f cfg).value = some v ∧ v ≠ "")
    ∧ (f.ftype ≠ some "hidden" → f.ftype ≠ some "file" → f.required = true →
        (getFieldValueFromConfig f.name cfg).getD "" = "" →
        (analyzeField f cfg).action = Action.ALERT) := by
  by_cases h1 : f.ftype = some "hidden"
  · refine ⟨?_, ?_, ?_⟩ <;> simp [analyzeField, analyzeFieldBody, h1]
  · by_cases h2 : f.ftype = some "file"
    · cases hn : f.name with
      | none =>
        refine ⟨?_, ?_, ?_⟩ <;> simp [analyzeField, analyzeFieldBody, h1, h2, hn]
      | some n =>
        by_cases h3 : (strContains (strLower n) "resume" || strContains (strLower n) "cv") = true
        · refine ⟨?_, ?_, ?_⟩ <;> simp [analyzeField, analyzeFieldBody, h1, h2, hn, h3]
        · refine ⟨?_, ?_, ?_⟩ <;>
            simp [analyzeField, analyzeFieldBody, h1, h2, hn, Bool.not_eq_true _ ▸ h3]
    · by_cases h4 : (getFieldValueFromConfig f.name cfg).getD "" = ""
      · by_cases h5 : f.required
        · refine ⟨?_, ?_, ?_⟩ <;> simp [analyzeField, analyzeFieldBody, h1, h2, h4, h5]
        · refine ⟨?_, ?_, ?_⟩ <;> simp [analyzeField, analyzeFieldBody, h1, h2, h4, h5]
      · have hv := option_getD_ne_some h4
        by_cases h5 : f.required
        · refine ⟨?_, ?_, ?_⟩
          · simp [analyzeField, analyzeFieldBody, h1, h2, h4, h5]
          · intro _
            refine ⟨(getFieldValueFromConfig f.name cfg).getD "", ?_, h4⟩
            simp [analyzeField, analyzeFieldBody, h1, h2, h4, h5, hv.symm]
          · intro _ _ _ hc
            exact absurd hc h4
        · refine ⟨?_, ?_, ?_⟩
          · simp [analyzeField, analyzeFieldBody, h1, h2, h4, h5]
          · intro _
            refine ⟨(getFieldValueFromConfig f.name cfg).getD "", ?_, h4⟩
            simp [analyzeField, analyzeFieldBody, h1, h2, h4, h5, hv.symm]
          · intro _ _ hreq _
            exact absurd hreq (by simpa using h5)

/-- Witness for C1: the required text field `emergency_contact` with an
empty profile resolves no value and is classified ALERT. -/
theorem analyze_field_c1_witness :
    (analyzeField ⟨some "emergency_contact", some "text", true⟩ cfgEmpty).action = Action.ALERT :=
  (analyze_field_c1 ⟨some "emergency_contact", some "text", true⟩ cfgEmpty).2.2
    (by decide) (by decide) rfl (by decide)

/-- C2 (code bug): the per-field loop of `test_application_flow` never
reaches its completion report at all.  `required_fields` is referenced
(appends at lines 282/286/288, the report check at line 291) but never
initialized, and `analysis` is read at line 272 before its first
assignment, so for every field list — empty or not — and every profile and
every fill/upload outcome the loop raises `NameError` instead of
maintaining the missing-required accumulator the claim describes. -/
theorem field_loop_always_raises (fields : List FieldInfo) (cfg : Config)
    (fill : FieldInfo → String → Bool) (upload : Bool) :
    ∃ e, testApplicationFlowLoop fields cfg fill upload = Except.error e := by
  cases fields with
  | nil => exact ⟨"NameError: name required_fields is not defined", rfl⟩
  | cons f rest => exact ⟨"NameError: name analysis is not defined", rfl⟩

/-- C3 (code bug): `test_application_flow.py` never imports `datetime`, so
building the application record raises `NameError` before the history file
is read; the blanket `except` swallows it and `_save_application_details`
leaves the store exactly as it was — no record is ever appended.  The
second conjunct evaluates the body at a concrete failing input; the third
shows the intended append (modelled from the spec) would satisfy the
claimed round-trip. -/
theorem save_application_details_never_appends :
    (∀ store jd an cl now, saveApplicationDetails store jd an cl now = store)
    ∧ saveApplicationDetailsBody (some []) "jd" "an" "cl" "2025-01-01T00:00:00"
        = Except.error "NameError: name datetime is not defined"
    ∧ (∀ (store : Option (List ApplicationRecord)) jd1 an1 cl1 t1 jd2 an2 cl2 t2,
        saveApplicationDetailsIntended
          (saveApplicationDetailsIntended store jd1 an1 cl1 t1) jd2 an2 cl2 t2
        = some (store.getD [] ++ [⟨jd1, an1, cl1, t1, "attempted"⟩,
            ⟨jd2, an2, cl2, t2, "attempted"⟩])) := by
  refine ⟨fun store jd an cl now => rfl, rfl,
    fun store jd1 an1 cl1 t1 jd2 an2 cl2 t2 => ?_⟩
  simp [saveApplicationDetailsIntended]

/-- A selector whose guarded attempt does not reach `return True` makes
`_try_upload_file` record the attempt and move on to the rest of the list. -/
theorem tryUploadAttempts_cons_not (page : String → SelectorOutcome) (s : String)
    (rest : List String) (h : page s ≠ SelectorOutcome.attachOk) :
    tryUploadAttempts page (s :: rest) =
      ((tryUploadAttempts page rest).fst, s :: (tryUploadAttempts page rest).snd) := by
  have step : tryUploadAttempts page (s :: rest) =
      (match page s with
        | SelectorOutcome.attachOk => (true, [s])
        | _ => ((tryUploadAttempts page rest).fst, s :: (tryUploadAttempts page rest).snd)) :=
    rfl
  rw [step]
  cases hp : page s
  case attachOk => exact absurd hp h
  all_goals rfl

/-- A selector that resolves and attaches stops the loop with success. -/
theorem tryUploadAttempts_cons_ok (page : String → SelectorOutcome) (s : String)
    (rest : List String) (h : page s = SelectorOutcome.attachOk) :
    tryUploadAttempts page (s :: rest) = (true, [s]) := by
  unfold tryUploadAttempts
  rw [h]

/-- C4: `_try_upload_file` tries the selectors strictly in list order: the
first selector whose attempt reaches the attach (`attachOk`) returns
success immediately, the attempted-selector trace being exactly the failed
ones before it plus itself (no later selector is attempted); if every
selector fails to resolve or its attach attempt fails, every selector is
attempted in order and the call returns failure. -/
theorem try_upload_file_order (page : String → SelectorOutcome) :
    (∀ pre s post, (∀ x ∈ pre, page x ≠ SelectorOutcome.attachOk) →
        page s = SelectorOutcome.attachOk →
        tryUploadAttempts page (pre ++ s :: post) = (true, pre ++ [s]))
    ∧ (∀ sels, (∀ x ∈ sels, page x ≠ SelectorOutcome.attachOk) →
        tryUploadAttempts page sels = (false, sels))
    ∧ (∀ sels, tryUploadFile page sels = (tryUploadAttempts page sels).fst)
    ∧ uploadResume page = tryUploadFile page resumeSelectors := by
  refine ⟨?_, ?_, fun _ => rfl, rfl⟩
  · intro pre s post hpre hs
    induction pre with
    | nil => simpa using tryUploadAttempts_cons_ok page s post hs
    | cons a t ih =>
      have ha : page a ≠ SelectorOutcome.attachOk := hpre a (by simp)
      rw [List.cons_append, tryUploadAttempts_cons_not page a _ ha,
        ih (fun x hx => hpre x (List.mem_cons_of_mem a hx))]
      rfl
  · intro sels hall
    induction sels with
    | nil => rfl
    | cons a t ih =>
      have ha : page a ≠ SelectorOutcome.attachOk := hall a (by simp)
      rw [tryUploadAttempts_cons_not page a t ha,
        ih (fun x hx => hall x (List.mem_cons_of_mem a hx))]

/-- Witness for C4 (the spec's upload fallback scenario): with selectors
`[A, B, C]` where only `C` resolves, the call attempts `A`, `B`, then `C`
and returns success. -/
theorem try_upload_file_order_witness :
    tryUploadAttempts
      (fun s => if s = "C" then SelectorOutcome.attachOk else SelectorOutcome.noElement)
      (["A", "B"] ++ "C" :: []) = (true, ["A", "B"] ++ ["C"]) :=
  (try_upload_file_order
      (fun s => if s = "C" then SelectorOutcome.attachOk else SelectorOutcome.noElement)).1
    ["A", "B"] "C" [] (by decide) (by decide)

/-- C5 counterexample: a file-type field whose `name` attribute is Python
`None` (as `_get_form_fields` produces for a nameless input) is classified
SKIP with reason `Error in analysis` — not SKIP with reason
"unknown file upload" (in any capitalization), and not UPLOAD — refuting
the claim's dichotomy for file fields. -/
theorem analyze_field_file_none_cex :
    analyzeField ⟨none, some "file", true⟩ cfgEmpty
        = ⟨Action.SKIP, none, "Error in analysis"⟩
    ∧ strLower (analyzeField ⟨none, some "file", true⟩ cfgEmpty).reason
        ≠ "unknown file upload"
    ∧ (analyzeField ⟨none, some "file", true⟩ cfgEmpty).action ≠ Action.UPLOAD := by
  decide

/-- C5 as amended: for every file-type field whose name is present, a name
containing "resume" or "cv" case-insensitively yields UPLOAD with the
resume-document identifier `resume.pdf`, and any other name yields SKIP
with reason `Unknown file upload`; a file-type field whose name is absent
yields SKIP with reason `Error in analysis` through the error-containment
path. -/
theorem analyze_field_file_amended (name : Option String) (req : Bool) (cfg : Config) :
    analyzeField ⟨name, some "file", req⟩ cfg =
      match name with
      | none => ⟨Action.SKIP, none, "Error in analysis"⟩
      | some n =>
        if strContains (strLower n) "resume" || strContains (strLower n) "cv" then
          ⟨Action.UPLOAD, some "resume.pdf", "Resume upload field"⟩
        else
          ⟨Action.SKIP, none, "Unknown file upload"⟩ := by
  cases name with
  | none => rfl
  | some n =>
    by_cases h : (strContains (strLower n) "resume" || strContains (strLower n) "cv") = true <;>
      simp [analyzeField, analyzeFieldBody, h]

/-- C6: a hidden field is classified SKIP whatever its name, its required
flag, and the profile: the decision is the constant
`⟨SKIP, none, "Hidden field"⟩`, so no profile lookup or further check can
influence it. -/
theorem analyze_field_hidden (name : Option String) (req : Bool) (cfg : Config) :
    analyzeField ⟨name, some "hidden", req⟩ cfg = ⟨Action.SKIP, none, "Hidden field"⟩ := rfl

/-- C7: `_get_field_value_from_config` is exactly the first-match scan of
the spec's fixed priority table (name, email, phone, location, company/org,
linkedin, github, portfolio/website, comments/cover) over the lower-cased
field name; and a profile key that is absent during lookup yields
"no value found" (`none`) instead of an error — witnessed here for the
`email` key, and built into every table entry being `Option`-valued. -/
theorem get_field_value_priority (n : String) (cfg : Config) :
    getFieldValueFromConfig (some n) cfg = firstMatch (specPriorityTable cfg) (strLower n)
    ∧ (∀ (pi : PersonalInformation) ed sk, pi.email = none →
        getFieldValueFromConfig (some "email") ⟨some pi, ed, sk⟩ = none) := by
  constructor
  · rfl
  · intro pi ed sk h
    exact (show getFieldValueFromConfig (some "email") ⟨some pi, ed, sk⟩ = pi.email from rfl).trans h

/-- Witness for C7: a profile whose `personal_information` section lacks
the `email` key resolves no value for an `email` field. -/
theorem get_field_value_priority_witness :
    getFieldValueFromConfig (some "email")
        ⟨some ⟨none, none, none, none, none, none, none, none, none⟩, none, none⟩ = none :=
  (get_field_value_priority "email" cfgEmpty).2
    ⟨none, none, none, none, none, none, none, none, none⟩ none none rfl

/-- C8: `_handle_manual_captcha` performs, in order, the `captcha.png`
screenshot, the blocking wait for the human signal, the fixed 2000 ms
settle wait, and the re-scan of the generic challenge marker; it reports
success exactly when the re-scan finds no remaining marker element. -/
theorem handle_manual_captcha_spec (postCount : Nat) :
    ((handleManualCaptcha postCount).fst = true ↔ postCount = 0)
    ∧ (handleManualCaptcha postCount).snd =
        [CaptchaEvent.screenshot "captcha.png", CaptchaEvent.awaitHuman,
         CaptchaEvent.settle 2000, CaptchaEvent.rescan] := by
  unfold handleManualCaptcha
  by_cases h : postCount > 0
  · simp [h]
    omega
  · simp [h]
    omega

/-- C9: when no selector of the fixed challenge-marker table resolves to
any element, `handle_captcha` returns `False` ("no challenge") with an
empty event trace: no screenshot is taken and no human signal is awaited. -/
theorem handle_captcha_no_markers (count : String → Nat) (postCount : Nat)
    (h : ∀ p ∈ captchaSelectors, ∀ s ∈ p.snd, count s = 0) :
    handleCaptcha count postCount = (false, []) := by
  have h1 : (["iframe[title*=\x27checkbox\x27]", "#h-captcha", ".h-captcha",
      "iframe[src*=\x27hcaptcha\x27]"] : List String).any (fun s => count s > 0) = false := by
    rw [List.any_eq_false]
    intro s hs
    have := h ("hcaptcha", ["iframe[title*=\x27checkbox\x27]", "#h-captcha", ".h-captcha",
      "iframe[src*=\x27hcaptcha\x27]"]) (by simp [captchaSelectors]) s hs
    simp [this]
  have h2 : (["iframe[src*=\x27recaptcha\x27]", ".g-recaptcha",
      "#recaptcha"] : List String).any (fun s => count s > 0) = false := by
    rw [List.any_eq_false]
    intro s hs
    have := h ("recaptcha", ["iframe[src*=\x27recaptcha\x27]", ".g-recaptcha",
      "#recaptcha"]) (by simp [captchaSelectors]) s hs
    simp [this]
  simp [handleCaptcha, captchaSelectors, scanCaptcha, h1, h2]

/-- Witness for C9: a page on which every selector resolves to zero
elements yields "no challenge" and no manual-resolution events. -/
theorem handle_captcha_no_markers_witness :
    handleCaptcha (fun _ => 0) 7 = (false, []) :=
  handle_captcha_no_markers (fun _ => 0) 7 (fun _p _ _s _ => rfl)

/-- C10: `_analyze_field` is total — whenever its body raises (the concrete
case being a file-type field whose `name` attribute is `None`, so the
case-insensitive name check fails with `AttributeError`), the blanket
handler yields the decision SKIP with reason `Error in analysis`, required
flag notwithstanding. -/
theorem analyze_field_total (f : FieldInfo) (cfg : Config) :
    (∀ e, analyzeFieldBody f cfg = Except.error e →
        analyzeField f cfg = ⟨Action.SKIP, none, "Error in analysis"⟩)
    ∧ (f.ftype = some "file" → f.name = none →
        analyzeField f cfg = ⟨Action.SKIP, none, "Error in analysis"⟩) := by
  constructor
  · intro e he
    unfold analyzeField
    rw [he]
  · intro h1 h2
    simp [analyzeField, analyzeFieldBody, h1, h2]

/-- Witness for C10: a required file field with a `None` name is classified
SKIP with reason `Error in analysis`. -/
theorem analyze_field_total_witness :
    analyzeField ⟨none, some "file", true⟩ cfgEmpty = ⟨Action.SKIP, none, "Error in analysis"⟩ :=
  (analyze_field_total ⟨none, some "file", true⟩ cfgEmpty).2 rfl rfl

end CBNews
